import Mathlib

/-!
Verification of the local PlantUML processor (`src/processors/localProcessors.ts`).

The development embeds, faithfully to the TypeScript source:

* the close handlers of `generateLocalImage` and `generateLocalMap` (exit-code
  interpretation, stdout-chunk combination, diagnostic-message selection);
* the command resolution of `resolveLocalJarCmd` (home-shorthand expansion,
  absolute/relative resolution, jar detection, argument construction);
* the three cache-or-render orchestrators `ascii`, `png` and `svg`, modelled as
  pure functions over an association-list cache that also emit an event trace
  (cache reads, renderer invocations, cache writes, DOM insertions) so that
  ordering and no-render properties can be stated.

External collaborators (Node's `path` and `os` modules, the `plantuml-encoder`
library, the renderer child process, `Buffer` text codecs) enter as parameters.
-/

/-- Output kinds of the renderer (the `OutputType` enumeration imported from
`const.ts`): ASCII, PNG and SVG. -/
inductive OutputType
  | ASCII
  | PNG
  | SVG
deriving DecidableEq

/-- A decoded artifact as resolved by `generateLocalImage`: either the base64
encoding of the raw stdout bytes (PNG) or their UTF-8 decoding (ASCII/SVG).
The byte-to-text codecs live in Node's `Buffer` and are kept symbolic. -/
inductive Artifact
  | base64 (bytes : List Nat)
  | utf8 (bytes : List Nat)
deriving DecidableEq

/-- One `Buffer.copy` call: copy `c` into `dst` starting at `offset`, truncated
to fit the target (`chunk.copy(combined, offset)` in `generateLocalImage`). -/
def copyAt (dst : List Nat) (offset : Nat) (c : List Nat) : List Nat :=
  dst.take offset ++ c.take (min c.length (dst.length - offset)) ++
    dst.drop (offset + min c.length (dst.length - offset))

/-- One iteration of the copy loop in `generateLocalImage`'s close handler:
copy the chunk at the running offset, then advance the offset by its length. -/
def copyStep (acc : List Nat × Nat) (c : List Nat) : List Nat × Nat :=
  (copyAt acc.1 acc.2 c, acc.2 + c.length)

/-- The three-case stdout-chunk combination at the top of `generateLocalImage`'s
close handler: zero chunks give `Buffer.alloc(0)`, a single chunk is used as is,
and several chunks are copied at running offsets into a `Buffer.allocUnsafe`
buffer of the summed length. The arbitrary initial contents of the unsafe
allocation are the parameter `junk`. -/
def combineChunks (junk : Nat → Nat) (chunks : List (List Nat)) : List Nat :=
  match chunks with
  | [] => []
  | [c] => c
  | c1 :: c2 :: cs =>
    ((c1 :: c2 :: cs).foldl copyStep
      ((List.range ((c1 :: c2 :: cs).foldl (fun sum c => sum + c.length) 0)).map junk,
        0)).1

/-- The naive `Buffer.concat` of a chunk list, the reference implementation the
chunk combination is compared against: plain concatenation in arrival order. -/
def bufferConcat (chunks : List (List Nat)) : List Nat :=
  chunks.flatten

theorem foldl_length_sum (l : List (List Nat)) (s : Nat) :
    l.foldl (fun sum c => sum + c.length) s = s + (l.map List.length).sum := by
  induction l generalizing s with
  | nil => simp
  | cons c cs ih =>
    rw [List.foldl_cons, ih, List.map_cons, List.sum_cons]
    omega

theorem copyFold_spec (chunks : List (List Nat)) :
    ∀ pre rest : List Nat, rest.length = (chunks.map List.length).sum →
      chunks.foldl copyStep (pre ++ rest, pre.length) =
        (pre ++ chunks.flatten, pre.length + (chunks.map List.length).sum) := by
  induction chunks with
  | nil =>
    intro pre rest h
    simp only [List.map_nil, List.sum_nil] at h
    simp [List.eq_nil_of_length_eq_zero h]
  | cons c cs ih =>
    intro pre rest h
    simp only [List.map_cons, List.sum_cons] at h
    have hstep : copyStep (pre ++ rest, pre.length) c =
        ((pre ++ c) ++ rest.drop c.length, (pre ++ c).length) := by
      have hmin : min c.length ((pre ++ rest).length - pre.length) = c.length := by
        rw [List.length_append]
        omega
      simp only [copyStep, copyAt]
      rw [hmin, List.take_left, List.take_length, List.drop_append, Prod.mk.injEq]
      exact ⟨by simp [List.append_assoc], by rw [List.length_append]⟩
    have hlen2 : (rest.drop c.length).length = (cs.map List.length).sum := by
      rw [List.length_drop]
      omega
    rw [List.foldl_cons, hstep, ih (pre ++ c) (rest.drop c.length) hlen2,
      Prod.mk.injEq]
    refine ⟨by simp [List.flatten_cons, List.append_assoc], ?_⟩
    simp only [List.length_append, List.length_drop, List.map_cons, List.sum_cons] at h ⊢
    omega

theorem combineChunks_eq_flatten (junk : Nat → Nat) (chunks : List (List Nat)) :
    combineChunks junk chunks = chunks.flatten := by
  match chunks with
  | [] => rfl
  | [c] => simp [combineChunks]
  | c1 :: c2 :: cs =>
    have hbase :
        ((List.range ((c1 :: c2 :: cs).foldl (fun sum c => sum + c.length) 0)).map
            junk).length = ((c1 :: c2 :: cs).map List.length).sum := by
      rw [List.length_map, List.length_range, foldl_length_sum]
      omega
    have h := copyFold_spec (c1 :: c2 :: cs) []
      ((List.range ((c1 :: c2 :: cs).foldl (fun sum c => sum + c.length) 0)).map junk)
      hbase
    simp only [List.nil_append, List.length_nil, Nat.zero_add] at h
    exact congrArg Prod.fst h

/-- The close handler of `generateLocalImage` (the `child.on("close", ...)`
callback): the process outcome is given by the exit `code`, the list of stdout
`Buffer` chunks and the accumulated stderr text. The chunks are combined, then
the exit-code matrix decides between a decoded artifact and a rejection. -/
def generateLocalImage (ty : OutputType) (junk : Nat → Nat) (code : Int)
    (stdoutChunks : List (List Nat)) (stderr : String) : Except String Artifact :=
  let combined := combineChunks junk stdoutChunks
  if code = 0 then
    if combined.length = 0 then
      Except.error (if stderr = "" then "No output from PlantUML" else stderr)
    else if ty = OutputType.PNG then
      Except.ok (Artifact.base64 combined)
    else
      Except.ok (Artifact.utf8 combined)
  else
    if 0 < combined.length ∧ ty = OutputType.PNG then
      Except.ok (Artifact.base64 combined)
    else
      Except.error
        (if stderr = "" then "PlantUML exited with code " ++ toString code else stderr)

/-- The close handler of `generateLocalMap`: exit code zero resolves with the
accumulated stdout text (possibly empty); any other exit code rejects with
stderr, falling back to stdout, falling back to a message naming the code. -/
def generateLocalMap (code : Int) (stdout stderr : String) : Except String String :=
  if code = 0 then
    Except.ok stdout
  else
    Except.error
      (if stderr = "" then
        (if stdout = "" then
          "PlantUML map generation exited with code " ++ toString code
        else stdout)
      else stderr)

/-- JS `s.endsWith(t)` at the character level. -/
def strEndsWith (s t : String) : Bool :=
  t.data.isSuffixOf s.data

/-- JS `String.prototype.trim`: strip whitespace from both ends. -/
def strTrim (s : String) : String :=
  String.mk (((s.data.dropWhile Char.isWhitespace).reverse.dropWhile
    Char.isWhitespace).reverse)

/-- JS `s.slice(1)`, used by the home-shorthand expansion. -/
def strSliceOne (s : String) : String :=
  String.mk (s.data.drop 1)

/-- Node's `path` module, an external collaborator of `resolveLocalJarCmd`:
`isAbsolute` and `resolve` are kept abstract. -/
structure PathLib where
  isAbsolute : String → Bool
  resolve : String → String → String

/-- The plugin settings consumed by `resolveLocalJarCmd`. -/
structure Settings where
  localJar : String
  dotPath : String
  javaPath : String

/-- The path-resolution portion of `resolveLocalJarCmd` (lines 206-228): a path
whose first character is the home-shorthand marker is expanded against the
user's home directory (`userInfo().homedir + jarFromSettings.slice(1)`), an
absolute path passes through unchanged, and a relative path is resolved against
the supplied base path (`replacer.getFullPath("")`). -/
def resolveJarFullPath (lib : PathLib) (homedir basePath jarFromSettings : String) :
    String :=
  if jarFromSettings.data.head? = some '~' then
    homedir ++ strSliceOne jarFromSettings
  else if lib.isAbsolute jarFromSettings then
    jarFromSettings
  else
    lib.resolve basePath jarFromSettings

/-- `resolveLocalJarCmd` (lines 205-267): resolve the configured jar path, fail
on an empty result, build the PlantUML argument list (`-charset utf-8`, plus
`-graphvizdot` exactly when the configured dot path is truthy, non-blank after
trimming and not the default sentinel `'dot'`), and produce either a
`java -Djava.awt.headless=true -jar <path>` invocation for jar files or a
direct invocation of the resolved path with the headless flag first. -/
def resolveLocalJarCmd (lib : PathLib) (homedir basePath : String)
    (settings : Settings) : Except String (List String) :=
  let jarFullPath := resolveJarFullPath lib homedir basePath settings.localJar
  if jarFullPath.length = 0 then
    Except.error "Invalid local jar file"
  else
    let plantumlArgs := ["-charset", "utf-8"] ++
      (if settings.dotPath ≠ "" ∧ strTrim settings.dotPath ≠ "" ∧
          settings.dotPath ≠ "dot" then
        ["-graphvizdot", settings.dotPath]
      else [])
    if strEndsWith jarFullPath ".jar" then
      Except.ok ([settings.javaPath, "-Djava.awt.headless=true", "-jar",
        jarFullPath] ++ plantumlArgs)
    else
      Except.ok ([jarFullPath, "-Djava.awt.headless=true"] ++ plantumlArgs)

/-- A value in the localforage store: diagram artifacts and image maps are
strings, access timestamps (`Date.now()`) are numbers. -/
inductive CVal
  | str (s : String)
  | num (n : Nat)
deriving DecidableEq

/-- The localforage store, modelled as an association list where a newer entry
for a key shadows an older one (`setItem` overwrites). -/
abbrev Cache := List (String × CVal)

/-- `localforage.getItem`: the most recent entry for the key, if any. -/
def getItem (cache : Cache) (k : String) : Option CVal :=
  match cache with
  | [] => none
  | (k2, v) :: rest => if k2 = k then some v else getItem rest k

/-- `localforage.setItem`: record a new binding for the key. -/
def setItem (cache : Cache) (k : String) (v : CVal) : Cache :=
  (k, v) :: cache

/-- JS truthiness of a `getItem` result (`if(item)`): `null`, the empty string
and the number 0 are falsy. -/
def truthy : Option CVal → Bool
  | none => false
  | some (CVal.str s) => s != ""
  | some (CVal.num n) => n != 0

/-- The string read back from the cache. Artifact and map entries written by
this module are always strings; the numeric fallback is never reached from this
module's own writes. -/
def strOf : Option CVal → String
  | some (CVal.str s) => s
  | _ => ""

/-- The map argument handed to `insertImageWithMap` on a PNG cache hit: the
stored string, or `null` (modelled as `none`) when absent. -/
def optStrOf : Option CVal → Option String
  | some (CVal.str s) => some s
  | _ => none

/-- Observable actions of one orchestrator call, listed in program order:
cache reads, renderer-process invocations (`generateLocalImage` and
`generateLocalMap`), DOM insertions (`insertAsciiImage`, `insertImageWithMap`,
`insertSvgImage`) and cache writes. -/
inductive Event
  | cacheGet (key : String)
  | renderImage (ty : OutputType) (path : String)
  | renderMap (path : String)
  | present (ty : OutputType) (artifact : String) (map : Option String)
  | cacheSetStr (key : String) (value : String)
  | cacheSetNum (key : String) (value : Nat)
deriving DecidableEq

/-- Renderer-process invocations (`generateLocalImage` or `generateLocalMap`). -/
def isRenderEvent : Event → Bool
  | Event.renderImage _ _ => true
  | Event.renderMap _ => true
  | _ => false

/-- Image-artifact renderer invocations only. -/
def isRenderImageEvent : Event → Bool
  | Event.renderImage _ _ => true
  | _ => false

/-- Map renderer invocations only. -/
def isRenderMapEvent : Event → Bool
  | Event.renderMap _ => true
  | _ => false

/-- DOM insertions. -/
def isPresentEvent : Event → Bool
  | Event.present _ _ _ => true
  | _ => false

/-- Cache writes (artifact, map or timestamp). -/
def isCacheWriteEvent : Event → Bool
  | Event.cacheSetStr _ _ => true
  | Event.cacheSetNum _ _ => true
  | _ => false

/-- Per-call environment of an orchestrator: the outcome of
`generateLocalImage` for a given source, type and working directory, the
outcome of `generateLocalMap`, the document path `replacer.getPath(ctx)`, and
the clock `Date.now()`. Varying this environment between calls models a
renderer-configuration change. -/
structure Env where
  render : String → OutputType → String → Except String String
  renderMap : String → String → Except String String
  path : String
  now : Nat

deriving instance DecidableEq for Except

/-- Result of one orchestrator call: the cache after the call, the emitted
event trace in program order, and the overall outcome (`Except.error` models a
rejected promise; effects performed before the rejection are kept). -/
structure ProcOut where
  cache : Cache
  trace : List Event
  result : Except String Unit
deriving DecidableEq

/-- The `ascii` orchestrator (lines 17-30): key the cache by
`'ascii-' + plantuml.encode(source)`; on a truthy hit insert the cached text
and refresh the timestamp; on a miss render, insert the result, then write the
artifact and the timestamp. -/
def ascii (encode : String → String) (env : Env) (source : String)
    (cache : Cache) : ProcOut :=
  let encodedDiagram := encode source
  let item := getItem cache ("ascii-" ++ encodedDiagram)
  if truthy item then
    ⟨setItem cache ("ts-" ++ encodedDiagram) (CVal.num env.now),
     [Event.cacheGet ("ascii-" ++ encodedDiagram),
      Event.present OutputType.ASCII (strOf item) none,
      Event.cacheSetNum ("ts-" ++ encodedDiagram) env.now],
     Except.ok ()⟩
  else
    match env.render source OutputType.ASCII env.path with
    | Except.error e =>
      ⟨cache,
       [Event.cacheGet ("ascii-" ++ encodedDiagram),
        Event.renderImage OutputType.ASCII env.path],
       Except.error e⟩
    | Except.ok image =>
      ⟨setItem (setItem cache ("ascii-" ++ encodedDiagram) (CVal.str image))
          ("ts-" ++ encodedDiagram) (CVal.num env.now),
       [Event.cacheGet ("ascii-" ++ encodedDiagram),
        Event.renderImage OutputType.ASCII env.path,
        Event.present OutputType.ASCII image none,
        Event.cacheSetStr ("ascii-" ++ encodedDiagram) image,
        Event.cacheSetNum ("ts-" ++ encodedDiagram) env.now],
       Except.ok ()⟩

/-- The `png` orchestrator (lines 32-51): on a truthy hit fetch the paired map
(`'map-' + key`), insert image and map, refresh the timestamp; on a miss render
the image and then the map with the same path, write image, map and timestamp,
and only then insert. -/
def png (encode : String → String) (env : Env) (source : String)
    (cache : Cache) : ProcOut :=
  let encodedDiagram := encode source
  let item := getItem cache ("png-" ++ encodedDiagram)
  if truthy item then
    ⟨setItem cache ("ts-" ++ encodedDiagram) (CVal.num env.now),
     [Event.cacheGet ("png-" ++ encodedDiagram),
      Event.cacheGet ("map-" ++ encodedDiagram),
      Event.present OutputType.PNG (strOf item)
        (optStrOf (getItem cache ("map-" ++ encodedDiagram))),
      Event.cacheSetNum ("ts-" ++ encodedDiagram) env.now],
     Except.ok ()⟩
  else
    match env.render source OutputType.PNG env.path with
    | Except.error e =>
      ⟨cache,
       [Event.cacheGet ("png-" ++ encodedDiagram),
        Event.renderImage OutputType.PNG env.path],
       Except.error e⟩
    | Except.ok image =>
      match env.renderMap source env.path with
      | Except.error e =>
        ⟨cache,
         [Event.cacheGet ("png-" ++ encodedDiagram),
          Event.renderImage OutputType.PNG env.path,
          Event.renderMap env.path],
         Except.error e⟩
      | Except.ok mapText =>
        ⟨setItem (setItem (setItem cache ("png-" ++ encodedDiagram)
              (CVal.str image)) ("map-" ++ encodedDiagram) (CVal.str mapText))
            ("ts-" ++ encodedDiagram) (CVal.num env.now),
         [Event.cacheGet ("png-" ++ encodedDiagram),
          Event.renderImage OutputType.PNG env.path,
          Event.renderMap env.path,
          Event.cacheSetStr ("png-" ++ encodedDiagram) image,
          Event.cacheSetStr ("map-" ++ encodedDiagram) mapText,
          Event.cacheSetNum ("ts-" ++ encodedDiagram) env.now,
          Event.present OutputType.PNG image (some mapText)],
         Except.ok ()⟩

/-- The `svg` orchestrator (lines 53-65): like `ascii`, except that on a miss
the artifact and timestamp are written before the insertion. -/
def svg (encode : String → String) (env : Env) (source : String)
    (cache : Cache) : ProcOut :=
  let encodedDiagram := encode source
  let item := getItem cache ("svg-" ++ encodedDiagram)
  if truthy item then
    ⟨setItem cache ("ts-" ++ encodedDiagram) (CVal.num env.now),
     [Event.cacheGet ("svg-" ++ encodedDiagram),
      Event.present OutputType.SVG (strOf item) none,
      Event.cacheSetNum ("ts-" ++ encodedDiagram) env.now],
     Except.ok ()⟩
  else
    match env.render source OutputType.SVG env.path with
    | Except.error e =>
      ⟨cache,
       [Event.cacheGet ("svg-" ++ encodedDiagram),
        Event.renderImage OutputType.SVG env.path],
       Except.error e⟩
    | Except.ok image =>
      ⟨setItem (setItem cache ("svg-" ++ encodedDiagram) (CVal.str image))
          ("ts-" ++ encodedDiagram) (CVal.num env.now),
       [Event.cacheGet ("svg-" ++ encodedDiagram),
        Event.renderImage OutputType.SVG env.path,
        Event.cacheSetStr ("svg-" ++ encodedDiagram) image,
        Event.cacheSetNum ("ts-" ++ encodedDiagram) env.now,
        Event.present OutputType.SVG image none],
       Except.ok ()⟩

/-- The cache-key namespace tag of each output kind. -/
def kindTag : OutputType → String
  | OutputType.ASCII => "ascii-"
  | OutputType.PNG => "png-"
  | OutputType.SVG => "svg-"

/-- Dispatch to the orchestrator of an output kind. -/
def processDiagram (encode : String → String) (env : Env) (kind : OutputType)
    (source : String) (cache : Cache) : ProcOut :=
  match kind with
  | OutputType.ASCII => ascii encode env source cache
  | OutputType.PNG => png encode env source cache
  | OutputType.SVG => svg encode env source cache

theorem append_ne_of_ne (p q k : String) (h : p ≠ q) : p ++ k ≠ q ++ k := by
  intro hc
  apply h
  apply String.ext
  have hd : p.data ++ k.data = q.data ++ k.data := by
    rw [← String.data_append, ← String.data_append, hc]
  exact List.append_cancel_right hd

/-- C10: the three-case stdout-chunk combination in `generateLocalImage` (zero
chunks give an empty buffer; one chunk is used as is; several chunks are copied
into a freshly allocated buffer at running offsets) produces exactly the
concatenation of all received chunks in arrival order, i.e. it equals the naive
`Buffer.concat` of the chunk list, for every chunk list and every initial
contents of the unsafe allocation. -/
theorem combineChunks_refines_bufferConcat (junk : Nat → Nat)
    (chunks : List (List Nat)) :
    combineChunks junk chunks = bufferConcat chunks :=
  combineChunks_eq_flatten junk chunks

/-- C1: the exit-code matrix of `generateLocalImage`: exit 0 with non-empty
accumulated stdout succeeds, with the base64 encoding of the raw bytes for PNG
and the UTF-8 decoding otherwise; exit 0 with empty stdout fails; non-zero exit
with non-empty stdout and kind PNG succeeds with the base64-encoded stdout;
non-zero exit with a kind other than PNG fails; non-zero exit with empty stdout
fails. -/
theorem generateLocalImage_exit_matrix (ty : OutputType) (junk : Nat → Nat)
    (code : Int) (chunks : List (List Nat)) (stderr : String) :
    (code = 0 → chunks.flatten ≠ [] →
      generateLocalImage ty junk code chunks stderr =
        Except.ok (if ty = OutputType.PNG then Artifact.base64 chunks.flatten
          else Artifact.utf8 chunks.flatten)) ∧
    (code = 0 → chunks.flatten = [] →
      ∃ msg, generateLocalImage ty junk code chunks stderr = Except.error msg) ∧
    (code ≠ 0 → chunks.flatten ≠ [] → ty = OutputType.PNG →
      generateLocalImage ty junk code chunks stderr =
        Except.ok (Artifact.base64 chunks.flatten)) ∧
    (code ≠ 0 → ty ≠ OutputType.PNG →
      ∃ msg, generateLocalImage ty junk code chunks stderr = Except.error msg) ∧
    (code ≠ 0 → chunks.flatten = [] →
      ∃ msg, generateLocalImage ty junk code chunks stderr = Except.error msg) := by
  have hcc : combineChunks junk chunks = chunks.flatten :=
    combineChunks_eq_flatten junk chunks
  refine ⟨?_, ?_, ?_, ?_, ?_⟩
  · intro h0 hne
    have hne' : (List.map List.length chunks).sum ≠ 0 := by
      rw [← List.length_flatten]
      exact fun h => hne (List.eq_nil_of_length_eq_zero h)
    by_cases hty : ty = OutputType.PNG <;>
      simp [generateLocalImage, hcc, h0, hne', hty]
  · intro h0 hemp
    exact ⟨if stderr = "" then "No output from PlantUML" else stderr,
      by simp [generateLocalImage, hcc, h0, hemp]⟩
  · intro h0 hne hty
    have hne' : (List.map List.length chunks).sum ≠ 0 := by
      rw [← List.length_flatten]
      exact fun h => hne (List.eq_nil_of_length_eq_zero h)
    simp [generateLocalImage, hcc, h0, hty, hne', Nat.pos_of_ne_zero hne']
  · intro h0 hty
    exact ⟨if stderr = "" then "PlantUML exited with code " ++ toString code
        else stderr,
      by simp [generateLocalImage, hcc, h0, hty]⟩
  · intro h0 hemp
    exact ⟨if stderr = "" then "PlantUML exited with code " ++ toString code
        else stderr,
      by simp [generateLocalImage, hcc, h0, hemp]⟩

/-- Witness for C1: PNG, exit 0, two chunks, combined to their concatenation
and returned base64-encoded. -/
theorem generateLocalImage_exit_matrix_witness :
    generateLocalImage OutputType.PNG (fun _ => 7) 0 [[1], [2, 3]] "" =
      Except.ok (Artifact.base64 [1, 2, 3]) := by
  have h := (generateLocalImage_exit_matrix OutputType.PNG (fun _ => 7) 0
    [[1], [2, 3]] "").1 rfl (by decide)
  exact h.trans (by decide)

/-- C5 corrected: on a non-zero exit, `generateLocalMap` rejects with stderr
when non-empty, else the accumulated stdout when non-empty, else a message
naming the exit code; `generateLocalImage`, whenever it rejects (kind not PNG,
or empty combined stdout), rejects with stderr when non-empty and otherwise
directly with the message naming the exit code — its accumulated stdout is
never used as a fallback message. -/
theorem generateLocal_error_fallbacks (ty : OutputType) (junk : Nat → Nat)
    (code : Int) (chunks : List (List Nat)) (stdout stderr : String)
    (hc : code ≠ 0) :
    generateLocalMap code stdout stderr =
      Except.error (if stderr ≠ "" then stderr
        else if stdout ≠ "" then stdout
        else "PlantUML map generation exited with code " ++ toString code) ∧
    (ty ≠ OutputType.PNG ∨ chunks.flatten = [] →
      generateLocalImage ty junk code chunks stderr =
        Except.error (if stderr ≠ "" then stderr
          else "PlantUML exited with code " ++ toString code)) := by
  have hcc : combineChunks junk chunks = chunks.flatten :=
    combineChunks_eq_flatten junk chunks
  constructor
  · by_cases h1 : stderr = "" <;> by_cases h2 : stdout = "" <;>
      simp [generateLocalMap, hc, h1, h2]
  · intro hor
    rcases hor with hty | hemp
    · by_cases h1 : stderr = "" <;>
        simp [generateLocalImage, hcc, hc, hty, h1]
    · by_cases h1 : stderr = "" <;>
        simp [generateLocalImage, hcc, hc, hemp, h1]

/-- Witness for C5 (corrected form): non-zero exit, empty stderr, non-empty
stdout: the map generator falls back to stdout, the image generator does not. -/
theorem generateLocal_error_fallbacks_witness :
    generateLocalMap 1 "hi" "" = Except.error "hi" ∧
    generateLocalImage OutputType.SVG (fun _ => 0) 1 [[104, 105]] "" =
      Except.error "PlantUML exited with code 1" := by
  have h := generateLocal_error_fallbacks OutputType.SVG (fun _ => 0) 1
    [[104, 105]] "hi" "" (by decide)
  exact ⟨h.1.trans (by decide), (h.2 (Or.inl (by decide))).trans (by decide)⟩

/-- C5 counterexample: with a non-zero exit code, empty stderr and non-empty
accumulated stdout, `generateLocalImage` (kind SVG, so the call fails) rejects
with the message naming the exit code instead of falling back to the
accumulated stdout — while `generateLocalMap` on the same data does fall back
to its stdout text. -/
theorem generateLocalImage_no_stdout_fallback :
    generateLocalImage OutputType.SVG (fun _ => 0) 1 [[104, 105]] "" =
      Except.error "PlantUML exited with code 1" ∧
    generateLocalMap 1 "hi" "" = Except.error "hi" := by
  decide

/-- C6: `resolveLocalJarCmd` path resolution: a configured path beginning with
the home-shorthand marker is expanded against the current user's home
directory; otherwise an absolute path is used unchanged; a relative path is
resolved against the supplied base directory; and if the resolved path is empty
the call fails with the configuration error. -/
theorem resolveLocalJarCmd_path_resolution (lib : PathLib)
    (homedir basePath : String) (settings : Settings) :
    (settings.localJar.data.head? = some '~' →
      resolveJarFullPath lib homedir basePath settings.localJar =
        homedir ++ strSliceOne settings.localJar) ∧
    (settings.localJar.data.head? ≠ some '~' →
      lib.isAbsolute settings.localJar = true →
      resolveJarFullPath lib homedir basePath settings.localJar =
        settings.localJar) ∧
    (settings.localJar.data.head? ≠ some '~' →
      lib.isAbsolute settings.localJar = false →
      resolveJarFullPath lib homedir basePath settings.localJar =
        lib.resolve basePath settings.localJar) ∧
    (resolveJarFullPath lib homedir basePath settings.localJar = "" →
      resolveLocalJarCmd lib homedir basePath settings =
        Except.error "Invalid local jar file") := by
  refine ⟨?_, ?_, ?_, ?_⟩
  · intro h
    simp [resolveJarFullPath, h]
  · intro h1 h2
    simp [resolveJarFullPath, h1, h2]
  · intro h1 h2
    simp [resolveJarFullPath, h1, h2]
  · intro h
    simp [resolveLocalJarCmd, h]

/-- Witness for C6: a home-shorthand path is expanded against the home
directory. -/
theorem resolveLocalJarCmd_path_resolution_witness :
    ("~/p.jar" : String).data.head? = some '~' ∧
    resolveJarFullPath ⟨fun _ => false, fun a b => a ++ "/" ++ b⟩ "/home/u"
      "/base" "~/p.jar" = "/home/u" ++ strSliceOne "~/p.jar" :=
  ⟨by decide, (resolveLocalJarCmd_path_resolution
    ⟨fun _ => false, fun a b => a ++ "/" ++ b⟩ "/home/u" "/base"
    ⟨"~/p.jar", "", "java"⟩).1 (by decide)⟩

/-- C7: for a resolved path ending in `.jar` the command is the java path, the
headless flag, `-jar`, the jar path, in exactly that order (headless strictly
before `-jar`); otherwise the resolved path is invoked directly with the
headless flag as its first argument. -/
theorem resolveLocalJarCmd_jar_ordering (lib : PathLib)
    (homedir basePath : String) (settings : Settings)
    (hne : resolveJarFullPath lib homedir basePath settings.localJar ≠ "") :
    (strEndsWith (resolveJarFullPath lib homedir basePath settings.localJar)
        ".jar" = true →
      ∃ rest, resolveLocalJarCmd lib homedir basePath settings =
        Except.ok ([settings.javaPath, "-Djava.awt.headless=true", "-jar",
          resolveJarFullPath lib homedir basePath settings.localJar] ++ rest)) ∧
    (strEndsWith (resolveJarFullPath lib homedir basePath settings.localJar)
        ".jar" = false →
      ∃ rest, resolveLocalJarCmd lib homedir basePath settings =
        Except.ok ([resolveJarFullPath lib homedir basePath settings.localJar,
          "-Djava.awt.headless=true"] ++ rest)) := by
  have hlen : ¬(resolveJarFullPath lib homedir basePath settings.localJar).length
      = 0 :=
    fun h => hne (String.ext (List.eq_nil_of_length_eq_zero h))
  constructor
  · intro hj
    refine ⟨["-charset", "utf-8"] ++
      (if settings.dotPath ≠ "" ∧ strTrim settings.dotPath ≠ "" ∧
          settings.dotPath ≠ "dot" then ["-graphvizdot", settings.dotPath]
        else []), ?_⟩
    simp [resolveLocalJarCmd, hlen, hj]
  · intro hj
    refine ⟨["-charset", "utf-8"] ++
      (if settings.dotPath ≠ "" ∧ strTrim settings.dotPath ≠ "" ∧
          settings.dotPath ≠ "dot" then ["-graphvizdot", settings.dotPath]
        else []), ?_⟩
    simp [resolveLocalJarCmd, hlen, hj]

/-- Witness for C7: an absolute `.jar` path produces the java-headless-jar
order. -/
theorem resolveLocalJarCmd_jar_ordering_witness :
    ∃ rest, resolveLocalJarCmd ⟨fun _ => true, fun a b => a ++ "/" ++ b⟩
        "/home/u" "/base" ⟨"/a/p.jar", "", "java"⟩ =
      Except.ok (["java", "-Djava.awt.headless=true", "-jar", "/a/p.jar"] ++
        rest) :=
  (resolveLocalJarCmd_jar_ordering ⟨fun _ => true, fun a b => a ++ "/" ++ b⟩
    "/home/u" "/base" ⟨"/a/p.jar", "", "java"⟩ (by decide)).1 (by decide)

/-- C8: the produced argument list is exactly the invocation head (jar-style or
direct), then `-charset utf-8` (always present), then `-graphvizdot` with the
configured dot path appended if and only if that path is truthy, non-blank
after trimming, and different from the default sentinel `'dot'`. -/
theorem resolveLocalJarCmd_graphvizdot (lib : PathLib)
    (homedir basePath : String) (settings : Settings)
    (hne : resolveJarFullPath lib homedir basePath settings.localJar ≠ "") :
    resolveLocalJarCmd lib homedir basePath settings =
      Except.ok (
        (if strEndsWith (resolveJarFullPath lib homedir basePath
            settings.localJar) ".jar" = true then
          [settings.javaPath, "-Djava.awt.headless=true", "-jar",
            resolveJarFullPath lib homedir basePath settings.localJar]
        else
          [resolveJarFullPath lib homedir basePath settings.localJar,
            "-Djava.awt.headless=true"]) ++
        ["-charset", "utf-8"] ++
        (if settings.dotPath ≠ "" ∧ strTrim settings.dotPath ≠ "" ∧
            settings.dotPath ≠ "dot" then
          ["-graphvizdot", settings.dotPath]
        else [])) := by
  have hlen : ¬(resolveJarFullPath lib homedir basePath settings.localJar).length
      = 0 :=
    fun h => hne (String.ext (List.eq_nil_of_length_eq_zero h))
  by_cases hj : strEndsWith (resolveJarFullPath lib homedir basePath
      settings.localJar) ".jar" = true <;>
    simp [resolveLocalJarCmd, hlen, hj]

/-- Witness for C8: with the dot path unset the auxiliary option is absent and
`-charset utf-8` is present. -/
theorem resolveLocalJarCmd_graphvizdot_witness :
    resolveLocalJarCmd ⟨fun _ => true, fun a b => a ++ "/" ++ b⟩ "/home/u"
        "/base" ⟨"/a/p.jar", "", "java"⟩ =
      Except.ok ["java", "-Djava.awt.headless=true", "-jar", "/a/p.jar",
        "-charset", "utf-8"] :=
  (resolveLocalJarCmd_graphvizdot ⟨fun _ => true, fun a b => a ++ "/" ++ b⟩
    "/home/u" "/base" ⟨"/a/p.jar", "", "java"⟩ (by decide)).trans (by decide)

/-- A concrete environment whose renderer succeeds, for concrete evaluations. -/
def envA : Env :=
  ⟨fun _ _ _ => Except.ok "IMG", fun _ _ => Except.ok "MAP", "p", 5⟩

/-- A second concrete environment with a different renderer configuration
(different outcomes, path and clock), for cache-hit evaluations. -/
def envB : Env :=
  ⟨fun _ _ _ => Except.error "changed", fun _ _ => Except.error "changed", "q", 9⟩

/-- A concrete environment whose renderer fails. -/
def envErr : Env :=
  ⟨fun _ _ _ => Except.error "boom", fun _ _ => Except.error "boom", "p", 5⟩

/-- C2: after a call that misses the cache and successfully renders an artifact
`a` (stored under the kind-tagged key), a subsequent call with the identical
source hits the cache and presents the same artifact without invoking either
renderer again, for an arbitrary second environment — that is, even if the
renderer configuration changed in between. The hypothesis `a ≠ ""` holds for
every real render: base64 and UTF-8 decodings of the non-empty byte output are
non-empty strings. -/
theorem cache_hit_after_miss (encode : String → String) (env env2 : Env)
    (kind : OutputType) (source : String) (cache : Cache) (a : String)
    (hmiss : truthy (getItem cache (kindTag kind ++ encode source)) = false)
    (hrender : env.render source kind env.path = Except.ok a)
    (hok : (processDiagram encode env kind source cache).result = Except.ok ())
    (hne : a ≠ "") :
    (processDiagram encode env2 kind source
        (processDiagram encode env kind source cache).cache).result =
      Except.ok () ∧
    (∃ m, Event.present kind a m ∈
      (processDiagram encode env2 kind source
        (processDiagram encode env kind source cache).cache).trace) ∧
    (processDiagram encode env2 kind source
        (processDiagram encode env kind source cache).cache).trace.all
      (fun e => !isRenderEvent e) = true := by
  cases kind with
  | ASCII =>
    have h1 : ("ts-" ++ encode source) ≠ ("ascii-" ++ encode source) :=
      append_ne_of_ne _ _ _ (by decide)
    simp only [kindTag] at hmiss
    have hfirst : processDiagram encode env OutputType.ASCII source cache =
        ⟨setItem (setItem cache ("ascii-" ++ encode source) (CVal.str a))
            ("ts-" ++ encode source) (CVal.num env.now),
         [Event.cacheGet ("ascii-" ++ encode source),
          Event.renderImage OutputType.ASCII env.path,
          Event.present OutputType.ASCII a none,
          Event.cacheSetStr ("ascii-" ++ encode source) a,
          Event.cacheSetNum ("ts-" ++ encode source) env.now],
         Except.ok ()⟩ := by
      simp [processDiagram, ascii, hmiss, hrender]
    rw [hfirst]
    have hget : getItem (setItem (setItem cache ("ascii-" ++ encode source)
        (CVal.str a)) ("ts-" ++ encode source) (CVal.num env.now))
        ("ascii-" ++ encode source) = some (CVal.str a) := by
      simp [getItem, setItem, h1]
    refine ⟨?_, ⟨none, ?_⟩, ?_⟩ <;>
      simp [processDiagram, ascii, hget, truthy, hne, strOf, isRenderEvent]
  | PNG =>
    have h1 : ("ts-" ++ encode source) ≠ ("png-" ++ encode source) :=
      append_ne_of_ne _ _ _ (by decide)
    have h2 : ("map-" ++ encode source) ≠ ("png-" ++ encode source) :=
      append_ne_of_ne _ _ _ (by decide)
    have h3 : ("ts-" ++ encode source) ≠ ("map-" ++ encode source) :=
      append_ne_of_ne _ _ _ (by decide)
    simp only [kindTag] at hmiss
    cases hm : env.renderMap source env.path with
    | error e =>
      simp [processDiagram, png, hmiss, hrender, hm] at hok
    | ok mapText =>
      have hfirst : processDiagram encode env OutputType.PNG source cache =
          ⟨setItem (setItem (setItem cache ("png-" ++ encode source)
              (CVal.str a)) ("map-" ++ encode source) (CVal.str mapText))
              ("ts-" ++ encode source) (CVal.num env.now),
           [Event.cacheGet ("png-" ++ encode source),
            Event.renderImage OutputType.PNG env.path,
            Event.renderMap env.path,
            Event.cacheSetStr ("png-" ++ encode source) a,
            Event.cacheSetStr ("map-" ++ encode source) mapText,
            Event.cacheSetNum ("ts-" ++ encode source) env.now,
            Event.present OutputType.PNG a (some mapText)],
           Except.ok ()⟩ := by
        simp [processDiagram, png, hmiss, hrender, hm]
      rw [hfirst]
      have hget : getItem (setItem (setItem (setItem cache
          ("png-" ++ encode source) (CVal.str a)) ("map-" ++ encode source)
          (CVal.str mapText)) ("ts-" ++ encode source) (CVal.num env.now))
          ("png-" ++ encode source) = some (CVal.str a) := by
        simp [getItem, setItem, h1, h2]
      have hgetm : getItem (setItem (setItem (setItem cache
          ("png-" ++ encode source) (CVal.str a)) ("map-" ++ encode source)
          (CVal.str mapText)) ("ts-" ++ encode source) (CVal.num env.now))
          ("map-" ++ encode source) = some (CVal.str mapText) := by
        simp [getItem, setItem, h3]
      refine ⟨?_, ⟨some mapText, ?_⟩, ?_⟩ <;>
        simp [processDiagram, png, hget, hgetm, truthy, hne, strOf, optStrOf,
          isRenderEvent]
  | SVG =>
    have h1 : ("ts-" ++ encode source) ≠ ("svg-" ++ encode source) :=
      append_ne_of_ne _ _ _ (by decide)
    simp only [kindTag] at hmiss
    have hfirst : processDiagram encode env OutputType.SVG source cache =
        ⟨setItem (setItem cache ("svg-" ++ encode source) (CVal.str a))
            ("ts-" ++ encode source) (CVal.num env.now),
         [Event.cacheGet ("svg-" ++ encode source),
          Event.renderImage OutputType.SVG env.path,
          Event.cacheSetStr ("svg-" ++ encode source) a,
          Event.cacheSetNum ("ts-" ++ encode source) env.now,
          Event.present OutputType.SVG a none],
         Except.ok ()⟩ := by
      simp [processDiagram, svg, hmiss, hrender]
    rw [hfirst]
    have hget : getItem (setItem (setItem cache ("svg-" ++ encode source)
        (CVal.str a)) ("ts-" ++ encode source) (CVal.num env.now))
        ("svg-" ++ encode source) = some (CVal.str a) := by
      simp [getItem, setItem, h1]
    refine ⟨?_, ⟨none, ?_⟩, ?_⟩ <;>
      simp [processDiagram, svg, hget, truthy, hne, strOf, isRenderEvent]

/-- Witness for C2: a PNG miss-path render on the empty cache followed by a
call under a changed configuration that hits and presents the same artifact
with no renderer invocation. -/
theorem cache_hit_after_miss_witness :
    (processDiagram (fun s => s) envB OutputType.PNG "k"
        (processDiagram (fun s => s) envA OutputType.PNG "k" []).cache).result =
      Except.ok () ∧
    (∃ m, Event.present OutputType.PNG "IMG" m ∈
      (processDiagram (fun s => s) envB OutputType.PNG "k"
        (processDiagram (fun s => s) envA OutputType.PNG "k" []).cache).trace) ∧
    (processDiagram (fun s => s) envB OutputType.PNG "k"
        (processDiagram (fun s => s) envA OutputType.PNG "k" []).cache).trace.all
      (fun e => !isRenderEvent e) = true :=
  cache_hit_after_miss (fun s => s) envA envB OutputType.PNG "k" [] "IMG"
    (by decide) rfl (by decide) (by decide)

/-- C3 counterexample: with a PNG artifact cached under `'png-k'` but no map
under `'map-k'`, the hit is served silently as a full hit — the artifact is
inserted with a null map, the call succeeds, and neither a re-render nor a
map-only render is triggered. -/
theorem png_hit_without_map_served_silently :
    (png (fun s => s) envA "k" [("png-k", CVal.str "IMG")]).result =
      Except.ok () ∧
    Event.present OutputType.PNG "IMG" none ∈
      (png (fun s => s) envA "k" [("png-k", CVal.str "IMG")]).trace ∧
    (png (fun s => s) envA "k" [("png-k", CVal.str "IMG")]).trace.all
      (fun e => !isRenderEvent e) = true := by
  decide

/-- C3 corrected: every PNG call that finds a truthy artifact under
`'png-'+key` also fetches the paired map under `'map-'+key`; but when the map
is absent the artifact is nevertheless served as a full hit with a null map —
no re-render and no map-only render is triggered. -/
theorem png_hit_fetches_map (encode : String → String) (env : Env)
    (source : String) (cache : Cache)
    (hhit : truthy (getItem cache ("png-" ++ encode source)) = true) :
    Event.cacheGet ("map-" ++ encode source) ∈
      (png encode env source cache).trace ∧
    Event.present OutputType.PNG
        (strOf (getItem cache ("png-" ++ encode source)))
        (optStrOf (getItem cache ("map-" ++ encode source))) ∈
      (png encode env source cache).trace ∧
    (png encode env source cache).trace.all (fun e => !isRenderEvent e) =
      true ∧
    (png encode env source cache).result = Except.ok () := by
  refine ⟨?_, ?_, ?_, ?_⟩ <;> simp [png, hhit, isRenderEvent]

/-- Witness for C3 (corrected form): a PNG hit with an absent map fetches the
map key, presents with a null map and invokes no renderer. -/
theorem png_hit_fetches_map_witness :
    Event.cacheGet "map-k" ∈
      (png (fun s => s) envA "k" [("png-k", CVal.str "IMG")]).trace ∧
    Event.present OutputType.PNG "IMG" none ∈
      (png (fun s => s) envA "k" [("png-k", CVal.str "IMG")]).trace ∧
    (png (fun s => s) envA "k" [("png-k", CVal.str "IMG")]).trace.all
      (fun e => !isRenderEvent e) = true ∧
    (png (fun s => s) envA "k" [("png-k", CVal.str "IMG")]).result =
      Except.ok () :=
  png_hit_fetches_map (fun s => s) envA "k" [("png-k", CVal.str "IMG")]
    (by decide)

/-- The exact event order of a successful miss-path render, per output kind, as
implemented: ASCII inserts the artifact before writing it to the cache, while
PNG and SVG write every cache entry before inserting; the timestamp write
follows the artifact write in all three kinds; and PNG renders the map directly
after the artifact with the same working directory. -/
def expectedMissTrace (kind : OutputType) (key path image mapText : String)
    (now : Nat) : List Event :=
  match kind with
  | OutputType.ASCII =>
    [Event.cacheGet ("ascii-" ++ key),
     Event.renderImage OutputType.ASCII path,
     Event.present OutputType.ASCII image none,
     Event.cacheSetStr ("ascii-" ++ key) image,
     Event.cacheSetNum ("ts-" ++ key) now]
  | OutputType.PNG =>
    [Event.cacheGet ("png-" ++ key),
     Event.renderImage OutputType.PNG path,
     Event.renderMap path,
     Event.cacheSetStr ("png-" ++ key) image,
     Event.cacheSetStr ("map-" ++ key) mapText,
     Event.cacheSetNum ("ts-" ++ key) now,
     Event.present OutputType.PNG image (some mapText)]
  | OutputType.SVG =>
    [Event.cacheGet ("svg-" ++ key),
     Event.renderImage OutputType.SVG path,
     Event.cacheSetStr ("svg-" ++ key) image,
     Event.cacheSetNum ("ts-" ++ key) now,
     Event.present OutputType.SVG image none]

/-- C4 counterexample: on an ASCII cache miss the freshly rendered artifact is
inserted into the target strictly before it is written to the cache. -/
theorem ascii_presents_before_caching :
    (ascii (fun s => s) envA "k" []).result = Except.ok () ∧
    (ascii (fun s => s) envA "k" []).trace.indexOf
        (Event.present OutputType.ASCII "IMG" none) <
      (ascii (fun s => s) envA "k" []).trace.indexOf
        (Event.cacheSetStr "ascii-k" "IMG") := by
  decide

/-- C4 corrected: on a successful miss the per-kind event order is exactly
`expectedMissTrace`: the timestamp write always follows the artifact write, and
the PNG map render follows the artifact render with the same working directory,
but only PNG and SVG write the cache before presenting — ASCII presents first
and caches afterwards. -/
theorem miss_path_event_order (encode : String → String) (env : Env)
    (kind : OutputType) (source : String) (cache : Cache) (a : String)
    (hmiss : truthy (getItem cache (kindTag kind ++ encode source)) = false)
    (hrender : env.render source kind env.path = Except.ok a)
    (hok : (processDiagram encode env kind source cache).result =
      Except.ok ()) :
    ∃ m, (kind = OutputType.PNG → env.renderMap source env.path = Except.ok m) ∧
      (processDiagram encode env kind source cache).trace =
        expectedMissTrace kind (encode source) env.path a m env.now := by
  cases kind with
  | ASCII =>
    simp only [kindTag] at hmiss
    exact ⟨"", ⟨fun h => absurd h (by decide),
      by simp [processDiagram, ascii, expectedMissTrace, hmiss, hrender]⟩⟩
  | PNG =>
    simp only [kindTag] at hmiss
    cases hm : env.renderMap source env.path with
    | error e =>
      simp [processDiagram, png, hmiss, hrender, hm] at hok
    | ok mapText =>
      exact ⟨mapText, ⟨fun _ => rfl,
        by simp [processDiagram, png, expectedMissTrace, hmiss, hrender, hm]⟩⟩
  | SVG =>
    simp only [kindTag] at hmiss
    exact ⟨"", ⟨fun h => absurd h (by decide),
      by simp [processDiagram, svg, expectedMissTrace, hmiss, hrender]⟩⟩

/-- Witness for C4 (corrected form): the PNG miss path on the empty cache emits
exactly the expected event order. -/
theorem miss_path_event_order_witness :
    ∃ m, (OutputType.PNG = OutputType.PNG →
        envA.renderMap "k" envA.path = Except.ok m) ∧
      (processDiagram (fun s => s) envA OutputType.PNG "k" []).trace =
        expectedMissTrace OutputType.PNG "k" envA.path "IMG" m envA.now :=
  miss_path_event_order (fun s => s) envA OutputType.PNG "k" [] "IMG"
    (by decide) rfl (by decide)

/-- C9: if any render step of a call fails (the artifact render, or for PNG the
subsequent map render), nothing is inserted into the presentation target and no
cache entry (artifact, map or timestamp) is written for that call — the cache
is returned unchanged — and the failure propagates to the caller with no retry:
each renderer is invoked at most once. -/
theorem render_failure_leaves_no_trace (encode : String → String) (env : Env)
    (kind : OutputType) (source : String) (cache : Cache) (e : String)
    (herr : (processDiagram encode env kind source cache).result =
      Except.error e) :
    (processDiagram encode env kind source cache).cache = cache ∧
    (processDiagram encode env kind source cache).trace.all
      (fun ev => !isPresentEvent ev && !isCacheWriteEvent ev) = true ∧
    (processDiagram encode env kind source cache).trace.countP
      (fun ev => isRenderImageEvent ev) ≤ 1 ∧
    (processDiagram encode env kind source cache).trace.countP
      (fun ev => isRenderMapEvent ev) ≤ 1 := by
  cases kind with
  | ASCII =>
    cases hhit : truthy (getItem cache ("ascii-" ++ encode source)) with
    | true => simp [processDiagram, ascii, hhit] at herr
    | false =>
      cases hr : env.render source OutputType.ASCII env.path with
      | ok image => simp [processDiagram, ascii, hhit, hr] at herr
      | error e2 =>
        refine ⟨?_, ?_, ?_, ?_⟩ <;>
          simp [processDiagram, ascii, hhit, hr, isPresentEvent,
            isCacheWriteEvent, isRenderImageEvent, isRenderMapEvent]
  | PNG =>
    cases hhit : truthy (getItem cache ("png-" ++ encode source)) with
    | true => simp [processDiagram, png, hhit] at herr
    | false =>
      cases hr : env.render source OutputType.PNG env.path with
      | error e2 =>
        refine ⟨?_, ?_, ?_, ?_⟩ <;>
          simp [processDiagram, png, hhit, hr, isPresentEvent,
            isCacheWriteEvent, isRenderImageEvent, isRenderMapEvent]
      | ok image =>
        cases hm : env.renderMap source env.path with
        | ok mapText => simp [processDiagram, png, hhit, hr, hm] at herr
        | error e3 =>
          refine ⟨?_, ?_, ?_, ?_⟩ <;>
            simp [processDiagram, png, hhit, hr, hm, isPresentEvent,
              isCacheWriteEvent, isRenderImageEvent, isRenderMapEvent]
  | SVG =>
    cases hhit : truthy (getItem cache ("svg-" ++ encode source)) with
    | true => simp [processDiagram, svg, hhit] at herr
    | false =>
      cases hr : env.render source OutputType.SVG env.path with
      | ok image => simp [processDiagram, svg, hhit, hr] at herr
      | error e2 =>
        refine ⟨?_, ?_, ?_, ?_⟩ <;>
          simp [processDiagram, svg, hhit, hr, isPresentEvent,
            isCacheWriteEvent, isRenderImageEvent, isRenderMapEvent]

/-- Witness for C9: a failing PNG map render (artifact render succeeded first)
leaves the cache unchanged, inserts nothing, writes nothing, and invoked each
renderer once. -/
theorem render_failure_leaves_no_trace_witness :
    (processDiagram (fun s => s) ⟨fun _ _ _ => Except.ok "IMG",
        fun _ _ => Except.error "map boom", "p", 5⟩ OutputType.PNG "k"
        []).cache = [] ∧
    (processDiagram (fun s => s) ⟨fun _ _ _ => Except.ok "IMG",
        fun _ _ => Except.error "map boom", "p", 5⟩ OutputType.PNG "k"
        []).trace.all
      (fun ev => !isPresentEvent ev && !isCacheWriteEvent ev) = true ∧
    (processDiagram (fun s => s) ⟨fun _ _ _ => Except.ok "IMG",
        fun _ _ => Except.error "map boom", "p", 5⟩ OutputType.PNG "k"
        []).trace.countP (fun ev => isRenderImageEvent ev) ≤ 1 ∧
    (processDiagram (fun s => s) ⟨fun _ _ _ => Except.ok "IMG",
        fun _ _ => Except.error "map boom", "p", 5⟩ OutputType.PNG "k"
        []).trace.countP (fun ev => isRenderMapEvent ev) ≤ 1 :=
  render_failure_leaves_no_trace (fun s => s)
    ⟨fun _ _ _ => Except.ok "IMG", fun _ _ => Except.error "map boom", "p", 5⟩
    OutputType.PNG "k" [] "map boom" (by decide)
